import Mathlib

/-!
Verification of the reliability/session layer (`src/net/socket_state.rs`).

The Rust source under verification is `SocketState` with its four operations
`pre_process_packet`, `dropped_packets`, `process_received` and
`check_for_timeouts`, plus the get-or-create helper
`create_connection_if_not_exists`.  The collaborating types (`Connection`,
`Packet`, `RawPacket`, the ack bookkeeping and the error enum) are declared in
sibling modules that are not part of the given sources; they are modelled here
from the specification, as marked on each definition.

Modelling conventions:
- sequence numbers are 16-bit (`% 65536`), the ack bitfield is 32-bit, the
  ack horizon is 32 entries, following the spec's wire-header contract;
- `SocketAddr` is an opaque comparable key, modelled as `Nat`; payload bytes
  are `List Nat`;
- the `HashMap` registry is an association list with at-most-one entry per
  key (all operations either look up, overwrite in place, or append a fresh
  key);
- wire serialization (`bincode::serialize`) is an external collaborator and
  is passed in as a parameter `ser : RawPacket → Option (List Nat)`
  (`none` models an encoding failure);
- lock acquisition is modelled as always succeeding (sequential, poison-free
  execution), so the `Err` branches that the Rust code reserves for poisoned
  locks are never taken; the lock *discipline* (which lock, which mode) is
  modelled separately as an acquisition trace per operation.
-/

/-- Modelled from the spec: the error enum `AmethystNetworkError` is declared
outside the given sources.  The variants used by `socket_state.rs` are
`Unknown` and `AddConnectionToManagerFailed`; the spec's error design (§7)
additionally names `SerializationFailed`, so it is included as a variant in
order to state claims about it. -/
inductive AmethystNetworkError where
  | Unknown : AmethystNetworkError
  | AddConnectionToManagerFailed (err : String) : AmethystNetworkError
  | SerializationFailed : AmethystNetworkError
deriving DecidableEq

/-- Modelled from the spec: `Message`/`Packet` is `{endpoint, payload: bytes}`
(§3), matching the struct literal `Packet { addr, payload }` built in
`process_received`. -/
structure Packet where
  addr : Nat
  payload : List Nat
deriving DecidableEq

/-- Modelled from the spec: the wire header `{seq, ack, ack_field, payload}`
(§3), matching the field accesses `packet.seq`, `packet.ack_seq`,
`packet.ack_field`, `packet.payload` in `process_received`. -/
structure RawPacket where
  seq : Nat
  ack_seq : Nat
  ack_field : Nat
  payload : List Nat
deriving DecidableEq

/-- Modelled from the spec: `RawPacket::new(seq, &packet, last_seq, field)`
builds the wire header from the local sequence number, the outgoing packet's
payload, and the snapshot of the inbound ack record (§3, §4.4). -/
def RawPacket.new (seq : Nat) (packet : Packet) (last_seq : Nat) (field : Nat) :
    RawPacket :=
  { seq := seq, ack_seq := last_seq, ack_field := field, payload := packet.payload }

/-- Modelled from the spec: wrap-aware difference `(a - b) mod 2^16` of 16-bit
sequence counters (SequenceArithmetic, §4.1). -/
def wrapDiff (a b : Nat) : Nat :=
  (a % 65536 + 65536 - b % 65536) % 65536

/-- Modelled from the spec: `a` is newer than `b` iff `(a - b) mod 2^16` lies
in `(0, 2^15]` (half-range rule, §3 and §4.1). -/
def isNewer (a b : Nat) : Bool :=
  0 < wrapDiff a b && wrapDiff a b ≤ 32768

/-- Modelled from the spec: the `AckRecord` `{last_seq, field}` tracking which
remote sequence numbers have been seen; bit `i-1` of `field` is set iff
sequence `last_seq - i` (for `i ≥ 1`) has been observed (§3).  This is the
type of the `their_acks` field of `Connection`. -/
structure ExternalAcks where
  last_seq : Nat
  field : Nat
deriving DecidableEq

/-- Modelled from the spec: `AckRecord.observe(seq)` (§4.2), called
`their_acks.ack(packet.seq)` in the source.  If `seq` is newer: shift the
field left by the distance (masked to 32 bits), set the bit for the previous
`last_seq` if within the new horizon, and set `last_seq := seq`.  If equal:
no-op.  If older: set the corresponding bit when within the horizon,
otherwise no-op. -/
def ExternalAcks.ack (e : ExternalAcks) (seq : Nat) : ExternalAcks :=
  let s := seq % 65536
  if isNewer s e.last_seq then
    let d := wrapDiff s e.last_seq
    let shifted := (e.field <<< d) % 4294967296
    if d ≤ 32 then
      { last_seq := s, field := shifted ||| (1 <<< (d - 1)) }
    else
      { last_seq := s, field := shifted }
  else if s == e.last_seq % 65536 then
    e
  else
    let d := wrapDiff e.last_seq s
    if d ≤ 32 then
      { e with field := (e.field ||| (1 <<< (d - 1))) % 4294967296 }
    else
      e

/-- Modelled from the spec: an entry of the `SentWindow` with sequence `s` is
acknowledged by `resolve(ack_seq, ack_field)` iff `s = ack_seq`, or `s` is
older than `ack_seq`, within the 32-entry horizon, and the corresponding bit
of `ack_field` is set (§4.3). -/
def isAckedEntry (ack_seq ack_field s : Nat) : Bool :=
  s % 65536 == ack_seq % 65536 ||
    (isNewer ack_seq s && wrapDiff ack_seq s ≤ 32 &&
      (ack_field >>> (wrapDiff ack_seq s - 1)) % 2 == 1)

/-- Modelled from the spec: an entry with sequence `s` is dropped by
`resolve(ack_seq, ack_field)` iff `s` is older than `ack_seq` by more than
the representable 32-entry horizon (§4.3). -/
def isDroppedEntry (ack_seq s : Nat) : Bool :=
  isNewer ack_seq s && 32 < wrapDiff ack_seq s

/-- Modelled from the spec: `SentWindow.resolve(ack_seq, ack_field)` — the
source's `waiting_packets.ack` — removes acknowledged entries, removes and
returns dropped entries, and keeps the rest pending (§4.3).  The result is
`(dropped entries, remaining window)`; entries are kept in window order,
which under the caller contract (enqueue at successive sequence numbers) is
ascending by sequence. -/
def waitingPacketsAck (entries : List (Nat × Packet)) (ack_seq ack_field : Nat) :
    List (Nat × Packet) × List (Nat × Packet) :=
  (entries.filter (fun e => isDroppedEntry ack_seq e.1),
   entries.filter (fun e =>
     !isAckedEntry ack_seq ack_field e.1 && !isDroppedEntry ack_seq e.1))

/-- Modelled from the spec: `SentWindow.enqueue(seq, message)` inserts the
entry keyed by `seq` with overwrite-by-key semantics (§4.3). -/
def enqueuePacket (entries : List (Nat × Packet)) (seq : Nat) (p : Packet) :
    List (Nat × Packet) :=
  entries.filter (fun e => !(e.1 == seq)) ++ [(seq, p)]

/-- Modelled from the spec: the per-endpoint `Connection` aggregate
`{endpoint, local_seq, inbound AckRecord, SentWindow, dropped, last_heard}`
(§3), with the field names the source accesses: `seq_num`, `their_acks`,
`waiting_packets`, `dropped_packets`, `last_heard`.  `last_heard` is the
instant (model clock, `Nat`) at which the connection last heard from the
peer. -/
structure Connection where
  addr : Nat
  seq_num : Nat
  their_acks : ExternalAcks
  waiting_packets : List (Nat × Packet)
  dropped_packets : List Packet
  last_heard : Nat
deriving DecidableEq

/-- Modelled from the spec: `Connection::new(addr)` builds a fresh connection
with no traffic yet (§4.4 "fresh" state): counter at zero, empty ack record,
empty window, no drops, `last_heard` at the creation instant. -/
def Connection.new (addr : Nat) (now : Nat) : Connection :=
  { addr := addr, seq_num := 0, their_acks := { last_seq := 0, field := 0 },
    waiting_packets := [], dropped_packets := [], last_heard := now }

/-- The connection registry: `SocketState { timeout, connections }` from the
source, with the `HashMap<SocketAddr, Connection>` modelled as an association
list. -/
structure SocketState where
  timeout : Nat
  connections : List (Nat × Connection)
deriving DecidableEq

/-- Association-list lookup, modelling `HashMap::get` / `contains_key`. -/
def lookupConn : List (Nat × Connection) → Nat → Option Connection
  | [], _ => none
  | e :: t, a => if e.1 == a then some e.2 else lookupConn t a

/-- Key membership, modelling `HashMap::contains_key`. -/
def containsKey : List (Nat × Connection) → Nat → Bool
  | [], _ => false
  | e :: t, a => e.1 == a || containsKey t a

/-- In-place overwrite of the connection stored under a key, modelling
mutation through the shared handle obtained from the map. -/
def updateConn : List (Nat × Connection) → Nat → Connection → List (Nat × Connection)
  | [], _, _ => []
  | e :: t, a, c => (e.1, if e.1 == a then c else e.2) :: updateConn t a c

/-- `SocketState::new()`: empty registry with the default 10-second
timeout. -/
def SocketState.new : SocketState :=
  { timeout := 10, connections := [] }

/-- `SocketState::create_connection_if_not_exists(addr)` (source lines
117–132): under the map's write lock, return the existing connection for
`addr` if present, otherwise construct `Connection::new(addr)`, insert it,
and return it.  Lock acquisition is modelled as succeeding, so the
`AddConnectionToManagerFailed` branch is never taken; the new state is
returned alongside the obtained connection. -/
def createConnectionIfNotExists (s : SocketState) (addr : Nat) (now : Nat) :
    Connection × SocketState :=
  match lookupConn s.connections addr with
  | some c => (c, s)
  | none =>
      (Connection.new addr now,
       { s with connections := s.connections ++ [(addr, Connection.new addr now)] })

/-- `SocketState::pre_process_packet(packet)` (source lines 43–62): get or
create the connection; under its write lock enqueue the packet into
`waiting_packets` keyed by the current `seq_num`; under a second write lock
build `RawPacket::new(seq_num, &packet, their_acks.last_seq,
their_acks.field)`, advance `seq_num` by one wrapping, and serialize.  On
successful serialization return `Ok((packet.addr, buffer))`; otherwise fall
through to `Err(AmethystNetworkError::Unknown)`.  Note that in the source the
enqueue and the `seq_num` advance happen before serialization and are not
undone on failure. -/
def preProcessPacket (ser : RawPacket → Option (List Nat)) (s : SocketState)
    (packet : Packet) (now : Nat) :
    Except AmethystNetworkError (Nat × List Nat) × SocketState :=
  let cs := createConnectionIfNotExists s packet.addr now
  let connection := cs.1
  let seq_num := connection.seq_num
  let c1 := { connection with
    waiting_packets := enqueuePacket connection.waiting_packets seq_num packet }
  let raw_packet :=
    RawPacket.new c1.seq_num packet c1.their_acks.last_seq c1.their_acks.field
  let c2 := { c1 with seq_num := (c1.seq_num + 1) % 65536 }
  let s2 := { cs.2 with connections := updateConn cs.2.connections packet.addr c2 }
  (match ser raw_packet with
   | some buffer => Except.ok (packet.addr, buffer)
   | none => Except.error AmethystNetworkError.Unknown,
   s2)

/-- `SocketState::dropped_packets(addr)` (source lines 65–72): get or create
the connection, drain its `dropped_packets` list and return the drained
contents. -/
def droppedPackets (s : SocketState) (addr : Nat) (now : Nat) :
    Except AmethystNetworkError (List Packet) × SocketState :=
  let cs := createConnectionIfNotExists s addr now
  let c := cs.1
  (Except.ok c.dropped_packets,
   { cs.2 with
     connections := updateConn cs.2.connections addr { c with dropped_packets := [] } })

/-- `SocketState::process_received(addr, packet)` (source lines 75–93): get or
create the connection; under its write lock run `their_acks.ack(packet.seq)`;
under a second write lock run `waiting_packets.ack(packet.ack_seq,
packet.ack_field)`, assign the resulting dropped entries' payloads to
`dropped_packets` (an overwriting assignment in the source), and return
`Ok(Packet { addr, payload })`.  The source never touches `last_heard`
here. -/
def processReceived (s : SocketState) (addr : Nat) (packet : RawPacket)
    (now : Nat) :
    Except AmethystNetworkError Packet × SocketState :=
  let cs := createConnectionIfNotExists s addr now
  let c1 := { cs.1 with their_acks := cs.1.their_acks.ack packet.seq }
  let resolved := waitingPacketsAck c1.waiting_packets packet.ack_seq packet.ack_field
  let c2 := { c1 with
    waiting_packets := resolved.2,
    dropped_packets := resolved.1.map (fun e => e.2) }
  (Except.ok { addr := addr, payload := packet.payload },
   { cs.2 with connections := updateConn cs.2.connections addr c2 })

/-- One iteration of the sweep loop spawned by
`SocketState::check_for_timeouts` (source lines 96–115): under the map's read
lock, read every connection's `last_heard` and report (log) each whose
time-since-last-heard reaches the timeout.  The sweep only reads: the
registry is returned unchanged alongside the reported addresses. -/
def checkForTimeouts (s : SocketState) (now : Nat) : List Nat × SocketState :=
  ((s.connections.filter (fun e => s.timeout ≤ now - e.2.last_heard)).map
     (fun e => e.1),
   s)

/-! Registry (association-list) lemmas. -/

deriving instance DecidableEq for Except

theorem lookupConn_append (l : List (Nat × Connection)) (a : Nat) (c : Connection) :
    lookupConn l a = none → lookupConn (l ++ [(a, c)]) a = some c := by
  induction l with
  | nil => intro _; simp [lookupConn]
  | cons e t ih =>
      intro h
      by_cases hb : e.1 = a
      · simp [lookupConn, beq_iff_eq, hb] at h
      · simp [lookupConn, beq_iff_eq, hb] at h ⊢
        exact ih h

theorem lookupConn_update_self (l : List (Nat × Connection)) (a : Nat)
    (c₀ c : Connection) :
    lookupConn l a = some c₀ → lookupConn (updateConn l a c) a = some c := by
  induction l with
  | nil => intro h; simp [lookupConn] at h
  | cons e t ih =>
      intro h
      by_cases hb : e.1 = a
      · simp [lookupConn, updateConn, beq_iff_eq, hb]
      · simp [lookupConn, updateConn, beq_iff_eq, hb] at h ⊢
        exact ih h

theorem containsKey_update (l : List (Nat × Connection)) (a : Nat) (c : Connection)
    (b : Nat) : containsKey (updateConn l a c) b = containsKey l b := by
  induction l with
  | nil => rfl
  | cons e t ih => simp [containsKey, updateConn, ih]

theorem containsKey_append_single (l : List (Nat × Connection)) (a : Nat)
    (c : Connection) (b : Nat) :
    containsKey (l ++ [(a, c)]) b = (containsKey l b || (a == b)) := by
  induction l with
  | nil => simp [containsKey]
  | cons e t ih => simp [containsKey, ih, Bool.or_assoc]

theorem containsKey_of_lookup_some (l : List (Nat × Connection)) (a : Nat)
    (c : Connection) : lookupConn l a = some c → containsKey l a = true := by
  induction l with
  | nil => intro h; simp [lookupConn] at h
  | cons e t ih =>
      intro h
      by_cases hb : e.1 = a
      · simp [containsKey, hb]
      · simp [lookupConn, beq_iff_eq, hb] at h
        simp [containsKey, beq_iff_eq, hb]
        exact ih h

theorem containsKey_or_key (l : List (Nat × Connection)) (k a : Nat) (c : Connection) :
    lookupConn l k = some c → (containsKey l a || (k == a)) = containsKey l a := by
  intro h
  by_cases hb : k = a
  · subst hb
    simp [containsKey_of_lookup_some l k c h]
  · simp [beq_iff_eq, hb]

theorem lookupConn_after_create (s : SocketState) (addr now : Nat) :
    lookupConn (createConnectionIfNotExists s addr now).2.connections addr =
      some (createConnectionIfNotExists s addr now).1 := by
  cases h : lookupConn s.connections addr with
  | none => simp [createConnectionIfNotExists, h, lookupConn_append _ _ _ h]
  | some c => simp [createConnectionIfNotExists, h]

theorem lookupConn_update_after_create (s : SocketState) (k now : Nat)
    (c : Connection) :
    lookupConn (updateConn (createConnectionIfNotExists s k now).2.connections k c) k =
      some c :=
  lookupConn_update_self _ _ _ _ (lookupConn_after_create s k now)

theorem droppedPackets_result (s : SocketState) (addr now : Nat) (c : Connection) :
    lookupConn s.connections addr = some c →
    (droppedPackets s addr now).1 = Except.ok c.dropped_packets := by
  intro h
  simp [droppedPackets, createConnectionIfNotExists, h]

theorem createConnection_of_lookup_some (s : SocketState) (addr now : Nat)
    (c : Connection) (h : lookupConn s.connections addr = some c) :
    createConnectionIfNotExists s addr now = (c, s) := by
  simp [createConnectionIfNotExists, h]

theorem containsKey_update_after_create (s : SocketState) (k now : Nat)
    (c : Connection) (a : Nat) :
    containsKey (updateConn (createConnectionIfNotExists s k now).2.connections k c) a
      = (containsKey s.connections a || (k == a)) := by
  cases h : lookupConn s.connections k with
  | none =>
      simp [createConnectionIfNotExists, h, containsKey_update,
        containsKey_append_single]
  | some c0 =>
      have h1 : containsKey
          (updateConn (createConnectionIfNotExists s k now).2.connections k c) a
          = containsKey s.connections a := by
        rw [createConnection_of_lookup_some s k now c0 h]
        exact containsKey_update s.connections k c a
      rw [h1, containsKey_or_key s.connections k a c0 h]

/-- Claim C7: `create_connection_if_not_exists` is get-or-create with exactly
one Connection per endpoint: if the address is absent it inserts exactly one
fresh Connection and returns it; if present it returns the existing
Connection and changes nothing; hence a second call for the same address
yields the same single Connection and the same registry. -/
theorem createConnection_get_or_create (s : SocketState) (addr now nowLater : Nat) :
    (lookupConn s.connections addr = none →
      (createConnectionIfNotExists s addr now).1 = Connection.new addr now ∧
      (createConnectionIfNotExists s addr now).2.connections =
        s.connections ++ [(addr, Connection.new addr now)]) ∧
    (∀ c : Connection, lookupConn s.connections addr = some c →
      (createConnectionIfNotExists s addr now).1 = c ∧
      (createConnectionIfNotExists s addr now).2 = s) ∧
    createConnectionIfNotExists (createConnectionIfNotExists s addr now).2 addr nowLater =
      ((createConnectionIfNotExists s addr now).1,
       (createConnectionIfNotExists s addr now).2) := by
  refine ⟨?_, ?_, ?_⟩
  · intro h
    simp [createConnectionIfNotExists, h]
  · intro c hc
    simp [createConnectionIfNotExists, hc]
  · exact createConnection_of_lookup_some _ addr nowLater _ (lookupConn_after_create s addr now)

/-- Claim C7 witness: get-or-create evaluated on the empty registry at
address 7; the second call returns the connection created by the first and
leaves the registry unchanged. -/
theorem createConnection_get_or_create_witness :
    (createConnectionIfNotExists SocketState.new 7 3).1 = Connection.new 7 3 ∧
    createConnectionIfNotExists (createConnectionIfNotExists SocketState.new 7 3).2 7 5 =
      ((createConnectionIfNotExists SocketState.new 7 3).1,
       (createConnectionIfNotExists SocketState.new 7 3).2) :=
  ⟨((createConnection_get_or_create SocketState.new 7 3 5).1 (by decide)).1,
   (createConnection_get_or_create SocketState.new 7 3 5).2.2⟩

/-- Claim C10: calling `dropped_packets` for an address the registry has
never seen succeeds with `Ok` of the empty list, and inserts a fresh
Connection for that address into the map. -/
theorem droppedPackets_first_contact (s : SocketState) (addr now : Nat)
    (h : lookupConn s.connections addr = none) :
    (droppedPackets s addr now).1 = Except.ok ([] : List Packet) ∧
    lookupConn (droppedPackets s addr now).2.connections addr =
      some (Connection.new addr now) := by
  constructor
  · simp [droppedPackets, createConnectionIfNotExists, h, Connection.new]
  · simp only [droppedPackets, createConnectionIfNotExists, h]
    exact lookupConn_update_self _ addr _ _ (lookupConn_append _ _ _ h)

/-- Claim C10 witness: draining the never-seen address 7 on the empty
registry returns `Ok []` and stores a fresh connection under 7. -/
theorem droppedPackets_first_contact_witness :
    (droppedPackets SocketState.new 7 4).1 = Except.ok ([] : List Packet) ∧
    lookupConn (droppedPackets SocketState.new 7 4).2.connections 7 =
      some (Connection.new 7 4) :=
  droppedPackets_first_contact SocketState.new 7 4 (by rfl)

/-- Claim C6: `dropped_packets` is a read-once drain: it returns exactly the
connection current dropped list, leaves that list empty, and an immediate
second call returns the empty list. -/
theorem droppedPackets_drains (s : SocketState) (addr now nowLater : Nat) :
    (droppedPackets s addr now).1 =
      Except.ok (createConnectionIfNotExists s addr now).1.dropped_packets ∧
    lookupConn (droppedPackets s addr now).2.connections addr =
      some { (createConnectionIfNotExists s addr now).1 with dropped_packets := [] } ∧
    (droppedPackets (droppedPackets s addr now).2 addr nowLater).1 =
      Except.ok ([] : List Packet) := by
  have h2 : lookupConn (droppedPackets s addr now).2.connections addr =
      some { (createConnectionIfNotExists s addr now).1 with dropped_packets := [] } :=
    lookupConn_update_after_create s addr now _
  exact ⟨rfl, h2, droppedPackets_result _ addr nowLater _ h2⟩

/-- Claim C8: the registry only grows.  Each of `pre_process_packet`,
`process_received` and `dropped_packets` leaves the key set equal to the old
key set plus the operation address, and the timeout sweep returns the state
unchanged. -/
theorem registry_only_grows (ser : RawPacket → Option (List Nat)) (s : SocketState)
    (p : Packet) (addr : Nat) (raw : RawPacket) (now a : Nat) :
    containsKey (preProcessPacket ser s p now).2.connections a
      = (containsKey s.connections a || (p.addr == a)) ∧
    containsKey (processReceived s addr raw now).2.connections a
      = (containsKey s.connections a || (addr == a)) ∧
    containsKey (droppedPackets s addr now).2.connections a
      = (containsKey s.connections a || (addr == a)) ∧
    (checkForTimeouts s now).2 = s :=
  ⟨containsKey_update_after_create s p.addr now _ a,
   containsKey_update_after_create s addr now _ a,
   containsKey_update_after_create s addr now _ a,
   rfl⟩

/-- Claim C1 (amended): a successful `process_received` leaves the
connection's dropped list equal to exactly the payloads returned by
`waiting_packets.ack` — an overwriting assignment — and returns the
reconstructed packet; the ack record is updated with the arrived sequence
and the window keeps only the unresolved entries.  All other connection
fields are unchanged. -/
theorem processReceived_sets_dropped (s : SocketState) (addr : Nat)
    (raw : RawPacket) (now : Nat) :
    (processReceived s addr raw now).1 =
      Except.ok { addr := addr, payload := raw.payload } ∧
    lookupConn (processReceived s addr raw now).2.connections addr =
      some { (createConnectionIfNotExists s addr now).1 with
        their_acks := (createConnectionIfNotExists s addr now).1.their_acks.ack raw.seq,
        waiting_packets :=
          (waitingPacketsAck (createConnectionIfNotExists s addr now).1.waiting_packets
            raw.ack_seq raw.ack_field).2,
        dropped_packets :=
          ((waitingPacketsAck (createConnectionIfNotExists s addr now).1.waiting_packets
            raw.ack_seq raw.ack_field).1).map (fun e => e.2) } :=
  ⟨rfl, lookupConn_update_after_create s addr now _⟩

/-- A packet sitting in a connection's dropped list, not yet drained. -/
def pktOne : Packet := { addr := 7, payload := [1] }

/-- A connection that holds one harvested, undrained dropped packet. -/
def connAcc : Connection :=
  { addr := 7, seq_num := 0, their_acks := { last_seq := 0, field := 0 },
    waiting_packets := [], dropped_packets := [pktOne], last_heard := 0 }

/-- A registry holding `connAcc` under address 7. -/
def stAcc : SocketState := { timeout := 10, connections := [(7, connAcc)] }

/-- An inbound wire packet acknowledging nothing. -/
def rawIn : RawPacket := { seq := 1, ack_seq := 0, ack_field := 0, payload := [2] }

/-- Claim C1 counterexample: processing `rawIn` on `stAcc` (whose window is
empty, so the resolve result is empty) leaves the dropped list empty, while
the claim demands the previous contents `[pktOne]` with the resolve result
appended — so the undrained drop `pktOne` is discarded. -/
theorem processReceived_discards_undrained_cex :
    (lookupConn (processReceived stAcc 7 rawIn 0).2.connections 7).map
      (fun c => c.dropped_packets) = some [] ∧
    connAcc.dropped_packets ++
      ((waitingPacketsAck connAcc.waiting_packets rawIn.ack_seq rawIn.ack_field).1).map
        (fun e => e.2) ≠ ([] : List Packet) := by
  decide

/-- A connection whose `last_heard` instant is 3. -/
def connHeard : Connection :=
  { addr := 9, seq_num := 0, their_acks := { last_seq := 0, field := 0 },
    waiting_packets := [], dropped_packets := [], last_heard := 3 }

/-- A registry holding `connHeard` under address 9. -/
def stHeard : SocketState := { timeout := 10, connections := [(9, connHeard)] }

/-- Claim C5 (code bug evaluated): processing an inbound packet at instant
100 for the connection last heard at instant 3 succeeds, yet leaves
`last_heard` at 3: `process_received` never touches `last_heard`, so the
time since last heard is not restarted by inbound traffic. -/
theorem processReceived_no_last_heard_reset :
    (processReceived stHeard 9 rawIn 100).1 =
      Except.ok { addr := 9, payload := rawIn.payload } ∧
    (lookupConn (processReceived stHeard 9 rawIn 100).2.connections 9).map
      (fun c => c.last_heard) = some 3 ∧
    (3 : Nat) ≠ 100 := by
  decide

/-- A wire encoder that always fails, modelling a `bincode::serialize`
error. -/
def serFail : RawPacket → Option (List Nat) := fun _ => none

/-- A wire encoder that always succeeds, returning the payload bytes. -/
def serOk : RawPacket → Option (List Nat) := fun r => some r.payload

/-- A connection with sequence counter 5 and an empty window. -/
def connIdle : Connection :=
  { addr := 7, seq_num := 5, their_acks := { last_seq := 2, field := 1 },
    waiting_packets := [], dropped_packets := [], last_heard := 0 }

/-- A registry holding `connIdle` under address 7. -/
def stIdle : SocketState := { timeout := 10, connections := [(7, connIdle)] }

/-- An outbound application packet for address 7. -/
def pktOut : Packet := { addr := 7, payload := [4, 5] }

/-- Claim C2 counterexample: with a failing wire encoder,
`pre_process_packet` on `stIdle` returns an error, yet the packet is left
enqueued in the window under the old sequence number 5 and `seq_num` is
advanced to 6 — the state is not rolled back to its pre-call value. -/
theorem preProcess_no_rollback_cex :
    (preProcessPacket serFail stIdle pktOut 0).1 =
      Except.error AmethystNetworkError.Unknown ∧
    (lookupConn (preProcessPacket serFail stIdle pktOut 0).2.connections 7).map
      (fun c => c.waiting_packets) = some [(5, pktOut)] ∧
    connIdle.waiting_packets ≠ [(5, pktOut)] ∧
    (lookupConn (preProcessPacket serFail stIdle pktOut 0).2.connections 7).map
      (fun c => c.seq_num) = some 6 ∧
    connIdle.seq_num ≠ 6 := by
  decide

/-- Claim C2 (amended): if the wire encoding step fails,
`pre_process_packet` returns the error to the caller, but the connection is
left with the packet enqueued under the old `seq_num` and with `seq_num`
advanced by one (wrapping) — the enqueue and the advance are not rolled
back. -/
theorem preProcess_fail_state (ser : RawPacket → Option (List Nat))
    (s : SocketState) (p : Packet) (now : Nat)
    (hser : ser (RawPacket.new (createConnectionIfNotExists s p.addr now).1.seq_num p
      (createConnectionIfNotExists s p.addr now).1.their_acks.last_seq
      (createConnectionIfNotExists s p.addr now).1.their_acks.field) = none) :
    (preProcessPacket ser s p now).1 = Except.error AmethystNetworkError.Unknown ∧
    lookupConn (preProcessPacket ser s p now).2.connections p.addr =
      some { (createConnectionIfNotExists s p.addr now).1 with
        waiting_packets :=
          enqueuePacket (createConnectionIfNotExists s p.addr now).1.waiting_packets
            (createConnectionIfNotExists s p.addr now).1.seq_num p,
        seq_num := ((createConnectionIfNotExists s p.addr now).1.seq_num + 1) % 65536 } := by
  constructor
  · simp [preProcessPacket, RawPacket.new] at hser ⊢
    rw [hser]
  · exact lookupConn_update_after_create s p.addr now _

/-- Claim C2 witness: the amended statement evaluated with the failing
encoder on `stIdle`. -/
theorem preProcess_fail_state_witness :
    (preProcessPacket serFail stIdle pktOut 0).1 =
      Except.error AmethystNetworkError.Unknown ∧
    lookupConn (preProcessPacket serFail stIdle pktOut 0).2.connections pktOut.addr =
      some { (createConnectionIfNotExists stIdle pktOut.addr 0).1 with
        waiting_packets :=
          enqueuePacket (createConnectionIfNotExists stIdle pktOut.addr 0).1.waiting_packets
            (createConnectionIfNotExists stIdle pktOut.addr 0).1.seq_num pktOut,
        seq_num := ((createConnectionIfNotExists stIdle pktOut.addr 0).1.seq_num + 1) % 65536 } :=
  preProcess_fail_state serFail stIdle pktOut 0 (by decide)

/-- Claim C3 counterexample: on wire-encoding failure the call returns
`Unknown`, which is a different error kind from `SerializationFailed`. -/
theorem preProcess_error_kind_cex :
    (preProcessPacket serFail stIdle pktOut 0).1 =
      Except.error AmethystNetworkError.Unknown ∧
    (Except.error AmethystNetworkError.Unknown :
        Except AmethystNetworkError (Nat × List Nat)) ≠
      Except.error AmethystNetworkError.SerializationFailed := by
  decide

/-- Claim C3 (amended): if the wire encoding step inside
`pre_process_packet` fails, the call returns the error `Unknown` — not
`SerializationFailed` — surfaced directly to the caller. -/
theorem preProcess_fail_error_unknown (ser : RawPacket → Option (List Nat))
    (s : SocketState) (p : Packet) (now : Nat)
    (hser : ser (RawPacket.new (createConnectionIfNotExists s p.addr now).1.seq_num p
      (createConnectionIfNotExists s p.addr now).1.their_acks.last_seq
      (createConnectionIfNotExists s p.addr now).1.their_acks.field) = none) :
    (preProcessPacket ser s p now).1 = Except.error AmethystNetworkError.Unknown ∧
    AmethystNetworkError.Unknown ≠ AmethystNetworkError.SerializationFailed := by
  constructor
  · simp [preProcessPacket, RawPacket.new] at hser ⊢
    rw [hser]
  · decide

/-- Claim C3 witness: the amended statement evaluated with the failing
encoder on a fresh registry. -/
theorem preProcess_fail_error_unknown_witness :
    (preProcessPacket serFail SocketState.new pktOut 0).1 =
      Except.error AmethystNetworkError.Unknown ∧
    AmethystNetworkError.Unknown ≠ AmethystNetworkError.SerializationFailed :=
  preProcess_fail_error_unknown serFail SocketState.new pktOut 0 (by decide)

/-- Claim C4: a successful `pre_process_packet` enqueues the packet into the
window keyed by the old `seq_num`, returns `Ok` of the packet's address and
the serialization of `RawPacket::new(old seq_num, packet, their_acks.last_seq,
their_acks.field)`, and leaves `seq_num` advanced by one with wrapping (all
other connection fields unchanged). -/
theorem preProcess_success_spec (ser : RawPacket → Option (List Nat))
    (s : SocketState) (p : Packet) (now : Nat) (buffer : List Nat)
    (hser : ser (RawPacket.new (createConnectionIfNotExists s p.addr now).1.seq_num p
      (createConnectionIfNotExists s p.addr now).1.their_acks.last_seq
      (createConnectionIfNotExists s p.addr now).1.their_acks.field) = some buffer) :
    (preProcessPacket ser s p now).1 = Except.ok (p.addr, buffer) ∧
    lookupConn (preProcessPacket ser s p now).2.connections p.addr =
      some { (createConnectionIfNotExists s p.addr now).1 with
        waiting_packets :=
          enqueuePacket (createConnectionIfNotExists s p.addr now).1.waiting_packets
            (createConnectionIfNotExists s p.addr now).1.seq_num p,
        seq_num := ((createConnectionIfNotExists s p.addr now).1.seq_num + 1) % 65536 } := by
  constructor
  · simp [preProcessPacket, RawPacket.new] at hser ⊢
    rw [hser]
  · exact lookupConn_update_after_create s p.addr now _

/-- Claim C4 witness: the successful path evaluated with the always-ok
encoder on `stIdle`: the result carries address 7 and the encoded buffer,
the window holds the packet under sequence 5, and the counter advances to
6. -/
theorem preProcess_success_spec_witness :
    (preProcessPacket serOk stIdle pktOut 0).1 = Except.ok (pktOut.addr, pktOut.payload) ∧
    lookupConn (preProcessPacket serOk stIdle pktOut 0).2.connections pktOut.addr =
      some { (createConnectionIfNotExists stIdle pktOut.addr 0).1 with
        waiting_packets :=
          enqueuePacket (createConnectionIfNotExists stIdle pktOut.addr 0).1.waiting_packets
            (createConnectionIfNotExists stIdle pktOut.addr 0).1.seq_num pktOut,
        seq_num := ((createConnectionIfNotExists stIdle pktOut.addr 0).1.seq_num + 1) % 65536 } :=
  preProcess_success_spec serOk stIdle pktOut 0 pktOut.payload (by decide)

/-- The two shared locks of the source: the registry map lock
(`self.connections : Arc<RwLock<HashMap<..>>>`) and the per-connection lock
(`Arc<RwLock<Connection>>` stored under each address). -/
inductive LockId where
  | connMap : LockId
  | conn (addr : Nat) : LockId
deriving DecidableEq

/-- Read (shared) or write (exclusive) acquisition of an `RwLock`. -/
inductive LockMode where
  | R : LockMode
  | W : LockMode
deriving DecidableEq

/-- Two `RwLock` acquisitions block each other iff they are on the same lock
and at least one of them is exclusive. -/
def locksConflict (a b : LockId × LockMode) : Bool :=
  a.1 == b.1 && (a.2 == LockMode.W || b.2 == LockMode.W)

/-- Lock acquisitions performed by `create_connection_if_not_exists` (source
line 120): it takes `self.connections.write()` — the map's exclusive write
lock — for every call, including a pure lookup of an existing connection. -/
def createConnectionLocks : List (LockId × LockMode) :=
  [(LockId.connMap, LockMode.W)]

/-- Lock acquisitions of `pre_process_packet` (lines 44, 46, 53): the map
write lock via `create_connection_if_not_exists`, then `connection.write()`
twice. -/
def preProcessPacketLocks (addr : Nat) : List (LockId × LockMode) :=
  [(LockId.connMap, LockMode.W), (LockId.conn addr, LockMode.W),
   (LockId.conn addr, LockMode.W)]

/-- Lock acquisitions of `process_received` (lines 76, 77, 82): the map
write lock, then `connection.write()` twice. -/
def processReceivedLocks (addr : Nat) : List (LockId × LockMode) :=
  [(LockId.connMap, LockMode.W), (LockId.conn addr, LockMode.W),
   (LockId.conn addr, LockMode.W)]

/-- Lock acquisitions of `dropped_packets` (lines 66, 67): the map write
lock, then `connection.write()` once. -/
def droppedPacketsLocks (addr : Nat) : List (LockId × LockMode) :=
  [(LockId.connMap, LockMode.W), (LockId.conn addr, LockMode.W)]

/-- Lock acquisitions of one sweep iteration of `check_for_timeouts` (lines
102, 104): the map read lock, then each connection's read lock. -/
def checkForTimeoutsLocks (s : SocketState) : List (LockId × LockMode) :=
  (LockId.connMap, LockMode.R) :: s.connections.map (fun e => (LockId.conn e.1, LockMode.R))

/-- Two operations can block each other iff some acquisition of one
conflicts with some acquisition of the other. -/
def tracesConflict (t1 t2 : List (LockId × LockMode)) : Bool :=
  t1.any (fun a => t2.any (fun b => locksConflict a b))

/-- Claim C9 counterexample: a map lookup acquires the map's exclusive write
lock, so two concurrent lookups of existing connections conflict with each
other (not merely during an insertion), and packet processing for endpoint 1
conflicts with packet processing for endpoint 2 through that same map write
lock. -/
theorem lookup_write_lock_cex :
    createConnectionLocks = [(LockId.connMap, LockMode.W)] ∧
    tracesConflict createConnectionLocks createConnectionLocks = true ∧
    tracesConflict (preProcessPacketLocks 1) (processReceivedLocks 2) = true := by
  decide

/-- Claim C9 (amended): every operation, including a pure lookup of an
existing connection, begins by acquiring the map's exclusive write lock, so
concurrent map accesses exclude each other; only the per-connection work
after that acquisition is independent: the connection-lock acquisitions of
operations on distinct endpoints never conflict, and the sweep takes only
read locks. -/
theorem lock_discipline (s : SocketState) (a b : Nat) (h : a ≠ b) :
    createConnectionLocks = [(LockId.connMap, LockMode.W)] ∧
    (preProcessPacketLocks a).head? = some (LockId.connMap, LockMode.W) ∧
    (processReceivedLocks a).head? = some (LockId.connMap, LockMode.W) ∧
    (droppedPacketsLocks a).head? = some (LockId.connMap, LockMode.W) ∧
    tracesConflict ((preProcessPacketLocks a).drop 1) ((preProcessPacketLocks b).drop 1) = false ∧
    tracesConflict ((processReceivedLocks a).drop 1) ((droppedPacketsLocks b).drop 1) = false ∧
    (checkForTimeoutsLocks s).all (fun e => e.2 == LockMode.R) = true := by
  refine ⟨rfl, rfl, rfl, rfl, ?_, ?_, ?_⟩
  · simp [tracesConflict, preProcessPacketLocks, locksConflict, h]
  · simp [tracesConflict, processReceivedLocks, droppedPacketsLocks, locksConflict, h]
  · simp only [checkForTimeoutsLocks, List.all_eq_true]
    intro e he
    simp only [List.mem_cons, List.mem_map] at he
    rcases he with he | ⟨x, _, hx⟩
    · rw [he]; rfl
    · rw [← hx]; rfl

/-- Claim C9 witness: the amended lock discipline evaluated for endpoints 1
and 2 on the registry `stIdle`. -/
theorem lock_discipline_witness :
    createConnectionLocks = [(LockId.connMap, LockMode.W)] ∧
    (preProcessPacketLocks 1).head? = some (LockId.connMap, LockMode.W) ∧
    (processReceivedLocks 1).head? = some (LockId.connMap, LockMode.W) ∧
    (droppedPacketsLocks 1).head? = some (LockId.connMap, LockMode.W) ∧
    tracesConflict ((preProcessPacketLocks 1).drop 1) ((preProcessPacketLocks 2).drop 1) = false ∧
    tracesConflict ((processReceivedLocks 1).drop 1) ((droppedPacketsLocks 2).drop 1) = false ∧
    (checkForTimeoutsLocks stIdle).all (fun e => e.2 == LockMode.R) = true :=
  lock_discipline stIdle 1 2 (by decide)
